import Mathlib

/-!
Shallow embedding of the socket.io Pub/Sub adapter (src/lib/index.js).

The adapter relays locally originated socket.io broadcasts through a
Google Cloud Pub/Sub topic and re-applies inbound bus messages locally.
We model the pure decision structure of each function on explicit state
and inputs: asynchronous completions are passed in as result values, and
each handler returns the effects it performs (local broadcasts invoked,
envelopes published, ack issued, state updates, errors surfaced).
-/

namespace SocketIOPubsub

/-- A JavaScript error carrying a numeric status code (`err.code`). -/
structure JsError where
  code : Nat
deriving DecidableEq, Repr

/-- A Pub/Sub topic handle, identified by its name. -/
structure Topic where
  name : String
deriving DecidableEq, Repr

/-- The slice of the gcloud Pub/Sub client that `getTopic` uses:
`createTopic` is modelled by its completion value `(err, topic)` and
`pubsub.topic(name)` fetches an existing handle. -/
structure Pubsub where
  createTopicResult : String → Option JsError × Option Topic
  topic : String → Topic

/-- Function `getTopic` from src/lib/index.js: create the topic; if creation fails
with code 409 (already exists) fetch the existing handle and report
success; otherwise pass the completion through unchanged. -/
def getTopic (pubsub : Pubsub) (name : String) : Option JsError × Option Topic :=
  match pubsub.createTopicResult name with
  | (some e, t) =>
      if e.code = 409 then (none, some (pubsub.topic name)) else (some e, t)
  | (none, t) => (none, t)

/-- Function `channelMatches` from src/lib/index.js:
`messageChannel.startsWith(subscribedChannel)`, i.e. `subscribedChannel`
is a prefix of `messageChannel` (stated on the character sequences). -/
def channelMatches (messageChannel subscribedChannel : String) : Bool :=
  subscribedChannel.data.isPrefixOf messageChannel.data

/-- A socket.io packet; only the `nsp` field matters to the adapter.
`none` models the JavaScript field being `undefined`. -/
structure Packet where
  nsp : Option String
deriving DecidableEq, Repr

/-- Broadcast options; only `rooms` matters to the adapter. `none`
models `opts.rooms` being `undefined`. -/
structure BroadcastOpts where
  rooms : Option (List String)
deriving DecidableEq, Repr

/-- JavaScript string coercion used by `prefix + '#' + packet.nsp + '#'`:
an `undefined` field prints as "undefined". -/
def jsStr : Option String → String
  | some s => s
  | none => "undefined"

/-- The envelope `Object.assign({}, { senderId, packet, opts }, { channel })`
published by `PubsubAdapter.prototype.publish`. -/
structure Envelope where
  senderId : String
  packet : Packet
  opts : BroadcastOpts
  channel : String
deriving DecidableEq, Repr

/-- Per-instance adapter state: the fields set by the `PubsubAdapter`
constructor plus the `initializing`/`deleting` flags, the subscription
handle map (handles are numbered) and the base adapter's room map
(we keep only its key list, which is all the code reads). -/
structure AdapterState where
  uid : String
  pfx : String
  nspName : String
  channel : String
  initializing : Bool
  deleting : Bool
  subscriptions : String → Option Nat
  rooms : List String

/-- The `PubsubAdapter` constructor: stores `uid`, the factory prefix and
`prefix + '#' + nsp.name + '#'` as the channel, starts with no topics or
subscriptions and empty rooms, and immediately calls `subscribe`, which
sets `initializing`. `deleting` is uninitialized in JS, hence falsy. -/
def mkAdapter (pfx uid nspName : String) : AdapterState where
  uid := uid
  pfx := pfx
  nspName := nspName
  channel := pfx ++ "#" ++ nspName ++ "#"
  initializing := true
  deleting := false
  subscriptions := fun _ => none
  rooms := []

/-- The message payload `msg.data` as the delivery handler reads it;
`none` fields model `undefined`. -/
structure MsgData where
  channel : Option String
  senderId : Option String
  packet : Option Packet
  opts : BroadcastOpts
deriving DecidableEq, Repr

/-- What one run of the delivery handler `onmessage` did: whether it
invoked the local broadcast primitive, whether it called `msg.ack()`,
and whether it threw (a TypeError escaping the handler). -/
structure DeliveryResult where
  broadcastCalled : Bool
  acked : Bool
  threw : Bool
deriving DecidableEq, Repr

/-- Namespace normalization inside `onmessage`:
`if (packet.nsp === undefined) packet.nsp = '/'`. -/
def normalizeNsp : Option String → String
  | none => "/"
  | some s => s

/-- Method `PubsubAdapter.prototype.onmessage` from src/lib/index.js. Branches in
source order: closed subscription drops; `msg.data.channel` is read and
passed to `channelMatches`, which throws a TypeError when the field is
`undefined` (`undefined.startsWith`); a channel that does not prefix-match
drops; a matching `senderId` drops; a missing packet drops; a normalized
packet namespace different from `this.nsp.name` drops; otherwise the
packet is re-broadcast with `remote = true` and the message is acked. -/
def onmessage (a : AdapterState) (closed : Bool) (data : MsgData) : DeliveryResult :=
  if closed then ⟨false, false, false⟩
  else
    match data.channel with
    | none => ⟨false, false, true⟩
    | some ch =>
        if !channelMatches ch a.channel then ⟨false, false, false⟩
        else if data.senderId = some a.uid then ⟨false, false, false⟩
        else
          match data.packet with
          | none => ⟨false, false, false⟩
          | some p =>
              if normalizeNsp p.nsp ≠ a.nspName then ⟨false, false, false⟩
              else ⟨true, true, false⟩

/-- The observable effect of one call to
`PubsubAdapter.prototype.broadcast`: how many times the base adapter's
local broadcast ran, and the envelopes handed to `publish` in order. -/
structure BroadcastEffect where
  localBroadcasts : Nat
  published : List Envelope
deriving DecidableEq, Repr

/-- Method `PubsubAdapter.prototype.broadcast` from src/lib/index.js: always
delegates to `Adapter.prototype.broadcast` once; then (after waiting for
initialization) if `remote` it publishes nothing, otherwise it derives
`chn = prefix + '#' + packet.nsp + '#'` and publishes one envelope per
room to `chn + room + '#'` when `opts.rooms` is a non-empty list, else a
single envelope to `chn`. -/
def broadcast (a : AdapterState) (packet : Packet) (opts : BroadcastOpts)
    (remote : Bool) : BroadcastEffect :=
  if remote then ⟨1, []⟩
  else
    let chn := a.pfx ++ "#" ++ jsStr packet.nsp ++ "#"
    match opts.rooms with
    | some rs =>
        if rs.length ≠ 0 then
          ⟨1, rs.map fun room => ⟨a.uid, packet, opts, chn ++ room ++ "#"⟩⟩
        else ⟨1, [⟨a.uid, packet, opts, chn⟩]⟩
    | none => ⟨1, [⟨a.uid, packet, opts, chn⟩]⟩

/-- A published envelope as it arrives back from the bus: the payload
`msg.data` is the structured document as published. -/
def envToData (env : Envelope) : MsgData :=
  ⟨some env.channel, some env.senderId, some env.packet, env.opts⟩

/-- The synchronous start of `PubsubAdapter.prototype.subscribe`:
`this.initializing = true` before the waterfall is issued. -/
def subscribeStart (a : AdapterState) : AdapterState :=
  { a with initializing := true }

/-- The final waterfall callback of `PubsubAdapter.prototype.subscribe`,
given the completion `(err, subscription)`. On error the adapter state is
untouched (`this.emit('error', err)` only); on success the subscription
handle is recorded and both `deleting` and `initializing` are cleared.
The second component is the error handed to `subscribe`'s own callback. -/
def subscribeFinal (a : AdapterState) (topic : String)
    (res : Except JsError Nat) : AdapterState × Option JsError :=
  match res with
  | .error e => (a, some e)
  | .ok sub =>
      ({ a with
          subscriptions := fun t => if t = topic then some sub else a.subscriptions t
          deleting := false
          initializing := false }, none)

/-- Method `PubsubAdapter.prototype.waitForInitialization`: the callback runs
once `this.initializing` is false; until then the wait reschedules
itself. A waiter proceeds exactly when the flag is clear. -/
def waitProceeds (a : AdapterState) : Bool :=
  !a.initializing

/-- Completion of `subscription.delete(...)` as seen by its callback. -/
inductive DeleteOutcome where
  | ok : DeleteOutcome
  | err : JsError → DeleteOutcome
deriving DecidableEq, Repr

/-- Method `PubsubAdapter.prototype.lazyDeleteSubscription`: when the room map
is empty and no deletion is in flight, set `this.deleting = true` and
call `this.subscriptions[this.prefix].delete(...)` — which throws a
TypeError (modelled as `none`) when no handle is recorded. In the delete
callback a non-404 error is emitted and passed to the caller with the
state otherwise untouched; success or a 404 deletes the handle and calls
back without error. The `deleting` flag is not cleared on any path.
When rooms are non-empty or a deletion is in flight, call back at once
with no error and no state change. The result is
`(state after the call, error handed to the callback)`. -/
def lazyDeleteSubscription (a : AdapterState) (res : DeleteOutcome) :
    Option (AdapterState × Option JsError) :=
  if a.rooms.length = 0 ∧ a.deleting = false then
    match a.subscriptions a.pfx with
    | none => none
    | some _ =>
        let a1 := { a with deleting := true }
        match res with
        | .err e =>
            if e.code ≠ 404 then some (a1, some e)
            else
              some ({ a1 with
                  subscriptions := fun t => if t = a1.pfx then none else a1.subscriptions t },
                none)
        | .ok =>
            some ({ a1 with
                subscriptions := fun t => if t = a1.pfx then none else a1.subscriptions t },
              none)
  else some (a, none)

/-! ### Theorems about the claims -/

/-- C5: when topic creation fails with an already-exists conflict
(error code 409), `getTopic` completes as a success: no error is passed
on and the resulting handle is the one a direct fetch-existing call
(`pubsub.topic(name)`) returns, in particular non-null. -/
theorem getTopic_conflict_is_success (pubsub : Pubsub) (name : String)
    (e : JsError) (t : Option Topic)
    (h : pubsub.createTopicResult name = (some e, t)) (hc : e.code = 409) :
    getTopic pubsub name = (none, some (pubsub.topic name)) := by
  simp [getTopic, h, hc]

/-- A Pub/Sub client whose topic creation always reports a 409 conflict. -/
def conflictPubsub : Pubsub where
  createTopicResult := fun _ => (some ⟨409⟩, none)
  topic := fun n => ⟨n⟩

/-- Witness for C5 at a concrete client and topic name. -/
theorem getTopic_conflict_is_success_witness :
    getTopic conflictPubsub "socket.io" =
      (none, some (conflictPubsub.topic "socket.io")) :=
  getTopic_conflict_is_success conflictPubsub "socket.io" ⟨409⟩ none rfl rfl

/-- C2: the delivery handler acks a message exactly when every filter
passes — the subscription is not closed, the payload channel is present
and prefix-matches the instance channel, the sender is not this
instance, and the packet is present with normalized namespace equal to
this instance's namespace — and whenever it acks it has also invoked
the local broadcast. -/
theorem onmessage_ack_iff_mine (a : AdapterState) (closed : Bool) (data : MsgData) :
    ((onmessage a closed data).acked = true ↔
      closed = false ∧
      ∃ ch, data.channel = some ch ∧ channelMatches ch a.channel = true ∧
        data.senderId ≠ some a.uid ∧
        ∃ p, data.packet = some p ∧ normalizeNsp p.nsp = a.nspName) ∧
    ((onmessage a closed data).acked = true →
      (onmessage a closed data).broadcastCalled = true) := by
  cases closed with
  | true => simp [onmessage]
  | false =>
    cases hch : data.channel with
    | none => simp [onmessage, hch]
    | some ch =>
      by_cases hm : channelMatches ch a.channel = true
      · by_cases hs : data.senderId = some a.uid
        · simp [onmessage, hch, hm, hs]
        · cases hp : data.packet with
          | none => simp [onmessage, hch, hm, hs, hp]
          | some p =>
            by_cases hn : normalizeNsp p.nsp = a.nspName
            · simp [onmessage, hch, hm, hs, hp, hn]
            · simp [onmessage, hch, hm, hs, hp, hn]
      · simp [onmessage, hch, hm]

/-- Witness for C2 at a concrete adapter and message: all filters pass,
so the message is acked. -/
theorem onmessage_ack_iff_mine_witness :
    (onmessage (mkAdapter "socket.io" "u1" "/") false
        ⟨some "socket.io#/#lobby#", some "u2", some ⟨some "/"⟩, ⟨none⟩⟩).acked = true :=
  ((onmessage_ack_iff_mine (mkAdapter "socket.io" "u1" "/") false
      ⟨some "socket.io#/#lobby#", some "u2", some ⟨some "/"⟩, ⟨none⟩⟩).1).mpr
    ⟨rfl, "socket.io#/#lobby#", rfl, by decide, by decide, ⟨some "/"⟩, rfl, rfl⟩

/-- C3: a delivered message whose packet's normalized namespace (an
absent namespace field normalizes to the root marker "/") differs from
the instance's namespace triggers neither the local broadcast nor an
ack. -/
theorem onmessage_namespace_isolation (a : AdapterState) (closed : Bool)
    (data : MsgData) (p : Packet) (hp : data.packet = some p)
    (hn : normalizeNsp p.nsp ≠ a.nspName) :
    (onmessage a closed data).broadcastCalled = false ∧
    (onmessage a closed data).acked = false ∧
    normalizeNsp none = "/" := by
  refine ⟨?_, ?_, rfl⟩ <;>
  · cases closed with
    | true => simp [onmessage]
    | false =>
      cases hch : data.channel with
      | none => simp [onmessage, hch]
      | some ch =>
        by_cases hm : channelMatches ch a.channel = true
        · by_cases hs : data.senderId = some a.uid
          · simp [onmessage, hch, hm, hs]
          · simp [onmessage, hch, hm, hs, hp, hn]
        · simp [onmessage, hch, hm]

/-- Witness for C3: an adapter for namespace "/b" receiving a packet for
namespace "/a" on a matching channel neither broadcasts nor acks. -/
theorem onmessage_namespace_isolation_witness :
    (onmessage (mkAdapter "socket.io" "u1" "/b") false
        ⟨some "socket.io#/b#", some "u2", some ⟨some "/a"⟩, ⟨none⟩⟩).broadcastCalled = false ∧
    (onmessage (mkAdapter "socket.io" "u1" "/b") false
        ⟨some "socket.io#/b#", some "u2", some ⟨some "/a"⟩, ⟨none⟩⟩).acked = false :=
  ⟨(onmessage_namespace_isolation (mkAdapter "socket.io" "u1" "/b") false
      ⟨some "socket.io#/b#", some "u2", some ⟨some "/a"⟩, ⟨none⟩⟩ ⟨some "/a"⟩ rfl
      (by decide)).1,
   (onmessage_namespace_isolation (mkAdapter "socket.io" "u1" "/b") false
      ⟨some "socket.io#/b#", some "u2", some ⟨some "/a"⟩, ⟨none⟩⟩ ⟨some "/a"⟩ rfl
      (by decide)).2.1⟩

/-- C8 counterexample: a message missing the channel field is not
dropped silently — `channelMatches(undefined, this.channel)` evaluates
`undefined.startsWith(...)`, so the handler throws a TypeError. -/
theorem onmessage_missing_channel_throws :
    (onmessage (mkAdapter "socket.io" "u1" "/")
        false ⟨none, some "u2", some ⟨some "/"⟩, ⟨none⟩⟩).threw = true := by
  decide

/-- C8 amended: a malformed message missing the packet (with the channel
field present) is dropped silently — no broadcast, no ack, no throw, no
error surfaced; but a message missing the channel field makes the
handler throw whenever the subscription is not closed. -/
theorem onmessage_malformed (a : AdapterState) (closed : Bool) (data : MsgData) :
    (∀ ch, data.channel = some ch → data.packet = none →
      onmessage a closed data = ⟨false, false, false⟩) ∧
    (closed = false → data.channel = none →
      (onmessage a closed data).threw = true) := by
  constructor
  · intro ch hch hp
    cases closed with
    | true => simp [onmessage]
    | false =>
      by_cases hm : channelMatches ch a.channel = true
      · by_cases hs : data.senderId = some a.uid
        · simp [onmessage, hch, hm, hs]
        · simp [onmessage, hch, hm, hs, hp]
      · simp [onmessage, hch, hm]
  · intro hcl hch
    simp [onmessage, hcl, hch]

/-- Witness for the amended C8: a concrete packetless message is dropped
silently, and a concrete channelless message throws. -/
theorem onmessage_malformed_witness :
    onmessage (mkAdapter "socket.io" "u1" "/") false
        ⟨some "socket.io#/#", some "u2", none, ⟨none⟩⟩ = ⟨false, false, false⟩ ∧
    (onmessage (mkAdapter "socket.io" "u1" "/") false
        ⟨none, some "u2", some ⟨some "/"⟩, ⟨none⟩⟩).threw = true :=
  ⟨(onmessage_malformed (mkAdapter "socket.io" "u1" "/") false
      ⟨some "socket.io#/#", some "u2", none, ⟨none⟩⟩).1 "socket.io#/#" rfl rfl,
   (onmessage_malformed (mkAdapter "socket.io" "u1" "/") false
      ⟨none, some "u2", some ⟨some "/"⟩, ⟨none⟩⟩).2 rfl rfl⟩

/-- Every envelope the publish path emits carries this instance's uid as
its sender. -/
theorem broadcast_senderId_eq_uid (a : AdapterState) (p : Packet)
    (opts : BroadcastOpts) (remote : Bool) :
    ∀ env ∈ (broadcast a p opts remote).published, env.senderId = a.uid := by
  intro env henv
  cases remote with
  | true => simp [broadcast] at henv
  | false =>
    cases hr : opts.rooms with
    | none =>
      simp [broadcast, hr] at henv
      simp [henv]
    | some rs =>
      by_cases hl : rs.length = 0
      · simp [broadcast, hr, hl] at henv
        simp [henv]
      · simp [broadcast, hr, hl] at henv
        obtain ⟨room, _, henv⟩ := henv
        simp [← henv]

/-- C1: a broadcast invoked with the remote flag runs the local
broadcast primitive exactly once and publishes nothing; and any envelope
published by a non-remote broadcast of this instance, when it
round-trips through the bus and is delivered back to this instance, is
dropped before the local broadcast primitive is invoked again. -/
theorem broadcast_remote_no_echo (a : AdapterState) (p : Packet)
    (opts : BroadcastOpts) :
    broadcast a p opts true = ⟨1, []⟩ ∧
    ∀ env ∈ (broadcast a p opts false).published, ∀ closed,
      (onmessage a closed (envToData env)).broadcastCalled = false := by
  refine ⟨rfl, ?_⟩
  intro env henv closed
  have hsend := broadcast_senderId_eq_uid a p opts false env henv
  cases closed with
  | true => simp [onmessage]
  | false =>
    by_cases hm : channelMatches env.channel a.channel = true
    · simp [onmessage, envToData, hm, hsend]
    · simp [onmessage, envToData, hm]

/-- Witness for C1: the single envelope published by a concrete
non-remote broadcast does not re-trigger the local broadcast when it is
delivered back to its originator. -/
theorem broadcast_remote_no_echo_witness :
    (onmessage (mkAdapter "socket.io" "u1" "/") false
        (envToData ⟨"u1", ⟨some "/"⟩, ⟨none⟩, "socket.io#/#"⟩)).broadcastCalled = false :=
  (broadcast_remote_no_echo (mkAdapter "socket.io" "u1" "/") ⟨some "/"⟩ ⟨none⟩).2
    ⟨"u1", ⟨some "/"⟩, ⟨none⟩, "socket.io#/#"⟩ (by decide) false

/-- C4: a non-remote broadcast whose options carry a non-empty room list
(and whose packet carries this instance's namespace, as the base adapter
guarantees) publishes exactly one envelope per room, addressed to the
room channel `namespaceChannel ++ room ++ "#"`, and publishes no
envelope to the bare namespace channel. -/
theorem broadcast_room_targeting (pfx uid nspName : String) (p : Packet)
    (opts : BroadcastOpts) (rs : List String)
    (hr : opts.rooms = some rs) (hne : rs ≠ [])
    (hp : p.nsp = some nspName) :
    (broadcast (mkAdapter pfx uid nspName) p opts false).published =
      rs.map (fun room =>
        ⟨uid, p, opts, (mkAdapter pfx uid nspName).channel ++ room ++ "#"⟩) ∧
    ∀ env ∈ (broadcast (mkAdapter pfx uid nspName) p opts false).published,
      env.channel ≠ (mkAdapter pfx uid nspName).channel := by
  have hl : rs.length ≠ 0 := fun h => hne (List.length_eq_zero.mp h)
  have hpub : (broadcast (mkAdapter pfx uid nspName) p opts false).published =
      rs.map (fun room =>
        ⟨uid, p, opts, (mkAdapter pfx uid nspName).channel ++ room ++ "#"⟩) := by
    simp [broadcast, hr, hl, hp, jsStr, mkAdapter]
  refine ⟨hpub, ?_⟩
  intro env henv hcontra
  rw [hpub] at henv
  obtain ⟨room, -, hroom⟩ := List.mem_map.mp henv
  rw [← hroom] at hcontra
  have hlen := congrArg String.length hcontra
  have hone : ("#" : String).length = 1 := by decide
  simp only [String.length_append, hone] at hlen
  omega

/-- Witness for C4: broadcasting to rooms "x" and "y" publishes exactly
the two room-channel envelopes. -/
theorem broadcast_room_targeting_witness :
    (broadcast (mkAdapter "socket.io" "u1" "/") ⟨some "/"⟩
        ⟨some ["x", "y"]⟩ false).published =
      ["x", "y"].map (fun room =>
        ⟨"u1", ⟨some "/"⟩, ⟨some ["x", "y"]⟩,
          (mkAdapter "socket.io" "u1" "/").channel ++ room ++ "#"⟩) :=
  (broadcast_room_targeting "socket.io" "u1" "/" ⟨some "/"⟩ ⟨some ["x", "y"]⟩
    ["x", "y"] rfl (by decide) rfl).1

/-- C9: a non-remote broadcast with no target rooms (absent or empty
list) publishes exactly one envelope, addressed to the instance's
namespace channel, which the constructor derives as
`prefix ++ "#" ++ namespaceName ++ "#"`. -/
theorem broadcast_whole_namespace (pfx uid nspName : String) (p : Packet)
    (opts : BroadcastOpts) (hr : opts.rooms = none ∨ opts.rooms = some [])
    (hp : p.nsp = some nspName) :
    (broadcast (mkAdapter pfx uid nspName) p opts false).published =
      [⟨uid, p, opts, (mkAdapter pfx uid nspName).channel⟩] ∧
    (mkAdapter pfx uid nspName).channel = pfx ++ "#" ++ nspName ++ "#" := by
  refine ⟨?_, rfl⟩
  rcases hr with hr | hr <;> simp [broadcast, hr, hp, jsStr, mkAdapter]

/-- Witness for C9: a concrete roomless broadcast publishes one envelope
to the namespace channel "socket.io#/#". -/
theorem broadcast_whole_namespace_witness :
    (broadcast (mkAdapter "socket.io" "u1" "/") ⟨some "/"⟩ ⟨none⟩ false).published =
      [⟨"u1", ⟨some "/"⟩, ⟨none⟩, (mkAdapter "socket.io" "u1" "/").channel⟩] :=
  (broadcast_whole_namespace "socket.io" "u1" "/" ⟨some "/"⟩ ⟨none⟩
    (Or.inl rfl) rfl).1

/-- C6 counterexample: when the subscription-creation waterfall resolves
with an error, the `initializing` flag is NOT cleared, and waiters on
`waitForInitialization` do not proceed. -/
theorem subscribe_failure_keeps_initializing :
    ((subscribeFinal (subscribeStart (mkAdapter "socket.io" "u1" "/")) "socket.io"
        (Except.error ⟨500⟩)).1.initializing = true) ∧
    waitProceeds (subscribeFinal (subscribeStart (mkAdapter "socket.io" "u1" "/"))
        "socket.io" (Except.error ⟨500⟩)).1 = false :=
  ⟨rfl, rfl⟩

/-- C6 amended: `subscribe` sets the initializing flag for the duration
of the request, and clears it only when the request resolves
successfully — waiters then proceed; when it resolves with an error the
flag remains set and waiters stay blocked. -/
theorem subscribe_initializing_lifecycle (a : AdapterState) (topic : String) :
    (subscribeStart a).initializing = true ∧
    (∀ sub : Nat,
      (subscribeFinal (subscribeStart a) topic (Except.ok sub)).1.initializing = false ∧
      waitProceeds (subscribeFinal (subscribeStart a) topic (Except.ok sub)).1 = true) ∧
    (∀ e : JsError,
      (subscribeFinal (subscribeStart a) topic (Except.error e)).1.initializing = true ∧
      waitProceeds (subscribeFinal (subscribeStart a) topic (Except.error e)).1 = false) :=
  ⟨rfl, fun _ => ⟨rfl, rfl⟩, fun _ => ⟨rfl, rfl⟩⟩

/-- An adapter that finished initializing, holds a subscription handle
for its prefix topic, has empty rooms, and has no deletion in flight. -/
def readyAdapter : AdapterState :=
  { mkAdapter "socket.io" "u1" "/" with
      initializing := false
      subscriptions := fun t => if t = "socket.io" then some 0 else none }

/-- C7 counterexample: after a successful deletion completes,
`lazyDeleteSubscription` leaves the `deleting` flag set — it is never
cleared on this path, contrary to the claim. -/
theorem lazyDelete_keeps_deleting_flag :
    Option.map (fun out => out.1.deleting)
      (lazyDeleteSubscription readyAdapter DeleteOutcome.ok) = some true := by
  decide

/-- The adapter state after a completed subscription deletion: the
handle for the prefix topic is removed and the deleting flag is set. -/
def deletePost (a : AdapterState) : AdapterState :=
  { a with
      deleting := true
      subscriptions := fun t => if t = a.pfx then none else a.subscriptions t }

/-- C7 amended: with empty room membership, no deletion in flight and a
recorded subscription handle, `lazyDeleteSubscription` sets the deleting
flag and issues the deletion; on success or a 404 it clears the
subscription handle, surfacing no error, but the deleting flag remains
set (only a later successful `subscribe` clears it); on any other error
the error is surfaced and the handle kept. With non-empty rooms or a
deletion already in flight it is a no-op success changing no state. -/
theorem lazyDeleteSubscription_spec (a : AdapterState) :
    (∀ sub : Nat, a.rooms = [] → a.deleting = false →
        a.subscriptions a.pfx = some sub →
      (lazyDeleteSubscription a DeleteOutcome.ok = some (deletePost a, none) ∧
       lazyDeleteSubscription a (DeleteOutcome.err ⟨404⟩) = some (deletePost a, none) ∧
       ∀ e : JsError, e.code ≠ 404 →
         lazyDeleteSubscription a (DeleteOutcome.err e) =
           some ({ a with deleting := true }, some e))) ∧
    ((a.rooms ≠ [] ∨ a.deleting = true) →
      ∀ res, lazyDeleteSubscription a res = some (a, none)) := by
  constructor
  · intro sub h1 h2 h3
    refine ⟨?_, ?_, ?_⟩
    · simp [lazyDeleteSubscription, h1, h2, h3, deletePost]
    · simp [lazyDeleteSubscription, h1, h2, h3, deletePost]
    · intro e he
      simp [lazyDeleteSubscription, h1, h2, h3, he]
  · intro h res
    have hcond : ¬(a.rooms = [] ∧ a.deleting = false) := by
      rcases h with h | h
      · exact fun hc => h hc.1
      · exact fun hc => by simp [h] at hc
    simp [lazyDeleteSubscription, hcond]

/-- Witness for the amended C7: a concrete ready adapter deletes its
handle on success, and a concrete adapter with a deletion in flight is
left untouched. -/
theorem lazyDeleteSubscription_spec_witness :
    lazyDeleteSubscription readyAdapter DeleteOutcome.ok =
      some (deletePost readyAdapter, none) ∧
    lazyDeleteSubscription { readyAdapter with deleting := true } DeleteOutcome.ok =
      some (({ readyAdapter with deleting := true } : AdapterState), none) :=
  ⟨((lazyDeleteSubscription_spec readyAdapter).1 0 rfl rfl (by decide)).1,
   (lazyDeleteSubscription_spec { readyAdapter with deleting := true }).2
      (Or.inr rfl) DeleteOutcome.ok⟩

/-- C10: a successful `subscribe` completion clears the deleting flag
and records the subscription handle; no other modeled operation clears
it — a failed `subscribe` leaves it unchanged, starting a `subscribe`
leaves it unchanged, and `lazyDeleteSubscription` never turns it off
while a deletion is in flight. -/
theorem subscribe_success_clears_deleting (a : AdapterState) (topic : String) :
    (∀ sub : Nat,
      (subscribeFinal a topic (Except.ok sub)).1.deleting = false ∧
      (subscribeFinal a topic (Except.ok sub)).1.subscriptions topic = some sub) ∧
    (∀ e : JsError, (subscribeFinal a topic (Except.error e)).1.deleting = a.deleting) ∧
    (subscribeStart a).deleting = a.deleting ∧
    (∀ res out, lazyDeleteSubscription a res = some out →
      a.deleting = true → out.1.deleting = true) := by
  refine ⟨fun sub => ⟨rfl, by simp [subscribeFinal]⟩, fun _ => rfl, rfl, ?_⟩
  intro res out hout hdel
  have hcond : ¬(a.rooms = [] ∧ a.deleting = false) := by
    intro hc
    rw [hdel] at hc
    exact absurd hc.2 (by simp)
  simp [lazyDeleteSubscription, hcond] at hout
  rw [← hout]
  exact hdel

/-- Witness for C10: a successful subscribe at a concrete state with a
deletion in flight clears the flag, while lazy deletion leaves it set. -/
theorem subscribe_success_clears_deleting_witness :
    (subscribeFinal { mkAdapter "socket.io" "u2" "/" with deleting := true }
        "socket.io" (Except.ok 5)).1.deleting = false ∧
    (({ mkAdapter "socket.io" "u2" "/" with deleting := true } : AdapterState),
        (none : Option JsError)).1.deleting = true :=
  ⟨((subscribe_success_clears_deleting
      { mkAdapter "socket.io" "u2" "/" with deleting := true } "socket.io").1 5).1,
   (subscribe_success_clears_deleting
      { mkAdapter "socket.io" "u2" "/" with deleting := true } "socket.io").2.2.2
      DeleteOutcome.ok _ rfl rfl⟩

end SocketIOPubsub
